import Mathlib

/-!
Shallow embedding of `src/temperature_scraper.py` (class `TemperatureScraper`)
and the pieces of `src/dashboard_gui.py` the claims touch.

The Python program fetches weather JSON per city, collects per-city records in
the instance field `temperature_data`, exports them to CSV/JSON, and prints
summary statistics.  We model:
  * one normalized record (`TemperatureRecord`) — the dict built at
    `_fetch_city_temperature` lines 69–77 (numeric fields are modelled as `Int`;
    the source stores Python floats/ints but no claim depends on non-integral
    values);
  * the JSON documents the program consumes and produces (`Json`);
  * the Python exceptions that can arise in the fetch path (`PyExc`) and the
    subscript/conversion semantics that raise them;
  * `_fetch_city_temperature` (lines 50–84), `scrape_weather_data`
    (lines 27–48), `save_to_csv` (86–103), `save_to_json` (105–118), and the
    summary selections of `display_summary` (lines 136–149).
-/

/-- One city's reading: the dict literal of `_fetch_city_temperature`
lines 69–77, with keys City, Min Temp (°C), Max Temp (°C), Current Condition,
Humidity (%), Wind Speed (km/h), Fetched At. -/
structure TemperatureRecord where
  city : String
  minTempC : Int
  maxTempC : Int
  condition : String
  humidityPercent : Int
  windSpeedKmh : Int
  fetchedAt : String
deriving Repr, DecidableEq

/-- JSON values, as consumed from the wttr.in response and produced by
`json.dump`.  Objects are ordered association lists (Python dicts preserve
insertion order). -/
inductive Json where
  | str (s : String)
  | num (n : Int)
  | arr (elems : List Json)
  | obj (fields : List (String × Json))

/-- The Python exceptions reachable in `_fetch_city_temperature`'s try block:
`requests.exceptions.RequestException` (raised by `requests.get` /
`raise_for_status`), `json.JSONDecodeError` (raised by `response.json()`),
`KeyError` / `IndexError` / `TypeError` (subscripting), `ValueError`
(`float()` / `int()` on a non-numeric string). -/
inductive PyExc where
  | keyError
  | indexError
  | typeError
  | valueError
  | jsonDecodeError
  | requestException
deriving Repr, DecidableEq

instance {ε α : Type} [DecidableEq ε] [DecidableEq α] : DecidableEq (Except ε α)
  | .ok x, .ok y =>
    if h : x = y then .isTrue (by rw [h]) else .isFalse (fun hc => h (Except.ok.inj hc))
  | .ok _, .error _ => .isFalse (fun hc => Except.noConfusion hc)
  | .error _, .ok _ => .isFalse (fun hc => Except.noConfusion hc)
  | .error e, .error f =>
    if h : e = f then .isTrue (by rw [h]) else .isFalse (fun hc => h (Except.error.inj hc))

/-- Python `d[k]` for a string key `k`: dict lookup (missing key raises
`KeyError`); subscripting a list by a string, or a string/number at all,
raises `TypeError`. -/
def getKey : Json → String → Except PyExc Json
  | .obj fields, k =>
    match fields.lookup k with
    | some v => .ok v
    | none => .error .keyError
  | .arr _, _ => .error .typeError
  | .str _, _ => .error .typeError
  | .num _, _ => .error .typeError

/-- Python `x[i]` for a natural index `i`: list indexing (out of range raises
`IndexError`); `dict[i]` raises `KeyError` (the program's dicts have string
keys only); `str[i]` yields a one-character string or raises `IndexError`;
subscripting a number raises `TypeError`. -/
def getIdx : Json → Nat → Except PyExc Json
  | .arr elems, i =>
    match elems.get? i with
    | some v => .ok v
    | none => .error .indexError
  | .obj _, _ => .error .keyError
  | .str s, i =>
    match s.data.get? i with
    | some c => .ok (.str (String.mk [c]))
    | none => .error .indexError
  | .num _, _ => .error .typeError

/-- Interpret a list of characters as a decimal numeral; `none` if any
character is not a digit. -/
def digitsToNat? (cs : List Char) : Option Nat :=
  cs.foldl
    (fun acc c => acc.bind fun n =>
      if c.isDigit then some (10 * n + (c.toNat - 48)) else none)
    (some 0)

/-- Parse a (possibly negated) decimal integer literal, the shape of the
numeric strings wttr.in returns (`"26"`, `"-4"`); `none` on anything else. -/
def parseIntString (s : String) : Option Int :=
  match s.data with
  | [] => none
  | '-' :: rest =>
    if rest.isEmpty then none else (digitsToNat? rest).map (fun n => -(n : Int))
  | cs => (digitsToNat? cs).map (fun n => (n : Int))

/-- Python `float(x)` as used at lines 71, 72, 75 (numeric domain modelled as
`Int`): a number passes through, a numeric string parses, a non-numeric string
raises `ValueError`, a list/dict raises `TypeError`. -/
def pyFloat : Json → Except PyExc Int
  | .num n => .ok n
  | .str s =>
    match parseIntString s with
    | some n => .ok n
    | none => .error .valueError
  | .arr _ => .error .typeError
  | .obj _ => .error .typeError

/-- Python `int(x)` as used at line 74; same observable behaviour as
`pyFloat` on the inputs this program can meet. -/
def pyInt : Json → Except PyExc Int
  | .num n => .ok n
  | .str s =>
    match parseIntString s with
    | some n => .ok n
    | none => .error .valueError
  | .arr _ => .error .typeError
  | .obj _ => .error .typeError

/-- Python string extraction for `weatherDesc[0]['value']` (line 65).  The
source stores the value unconverted; every well-formed response carries a
string there, and no claim exercises a non-string value, which we model as
`TypeError`. -/
def pyStr : Json → Except PyExc String
  | .str s => .ok s
  | _ => .error .typeError

/-- Outcome of `requests.get` + `raise_for_status` + `response.json()`
(lines 55–58): a network error / non-2xx status (`RequestException`), a body
that is not JSON (`json.JSONDecodeError`), or a parsed JSON document. -/
inductive Response where
  | netError
  | notJson
  | json (j : Json)

/-- Lines 55–58: `raise_for_status` then `response.json()`. -/
def responseJson : Response → Except PyExc Json
  | .netError => .error .requestException
  | .notJson => .error .jsonDecodeError
  | .json j => .ok j

/-- The try block of `_fetch_city_temperature` (lines 52–77), with the
source's evaluation order: `current_condition[0]` (61), `weather[0]` and its
temp keys (63–64), `weatherDesc[0]['value']` (65), `humidity` (66),
`windspeedKmph` (67), then the conversions in the dict literal (71–76).
`now` stands for `datetime.now().strftime(...)` at line 76. -/
def fetchBody (city now : String) (resp : Response) :
    Except PyExc TemperatureRecord := do
  let data ← responseJson resp
  let current_condition ← getIdx (← getKey data "current_condition") 0
  let weather0 ← getIdx (← getKey data "weather") 0
  let min_temp ← getKey weather0 "mintempC"
  let max_temp ← getKey weather0 "maxtempC"
  let condition ← pyStr (← getKey (← getIdx (← getKey current_condition "weatherDesc") 0) "value")
  let humidity ← getKey current_condition "humidity"
  let wind_speed ← getKey current_condition "windspeedKmph"
  let minT ← pyFloat min_temp
  let maxT ← pyFloat max_temp
  let hum ← pyInt humidity
  let wind ← pyFloat wind_speed
  pure { city := city, minTempC := minT, maxTempC := maxT, condition := condition,
         humidityPercent := hum, windSpeedKmh := wind, fetchedAt := now }

/-- `_fetch_city_temperature` (lines 50–84): the try block wrapped in the two
except clauses — `requests.exceptions.RequestException` (79–81) and
`(KeyError, json.JSONDecodeError)` (82–84) return `None`; any other
exception (`IndexError`, `ValueError`, `TypeError`) propagates to the
caller. -/
def fetch_city_temperature (city now : String) (resp : Response) :
    Except PyExc (Option TemperatureRecord) :=
  match fetchBody city now resp with
  | .ok r => .ok (some r)
  | .error .requestException => .ok none
  | .error .keyError => .ok none
  | .error .jsonDecodeError => .ok none
  | .error e => .error e

/-- The scraper's only mutable state: `self.temperature_data`
(initialised to `[]` at line 23 and never cleared). -/
structure ScraperState where
  temperature_data : List TemperatureRecord
deriving Repr, DecidableEq

/-- The fixed city list of `__init__` (lines 13–17). -/
def cities : List String :=
  ["New Delhi", "Kolkata", "Mumbai", "Chennai", "Bangalore",
   "Hyderabad", "Pune", "Gurgaon", "Lucknow", "Guwahati",
   "Bhubaneswar", "Ahmedabad", "Jaipur", "Dehradun", "Shimla"]

/-- One iteration of the loop in `scrape_weather_data` (lines 32–45): a
successful fetch appends the record (line 37), a `None` result is reported
and skipped (line 40), any exception is caught by `except Exception`
(lines 41–42) and the loop continues.  The `time.sleep(1)` throttle has no
observable effect on the data. -/
def scrapeStep (env : String → Response) (now : String)
    (acc : List TemperatureRecord) (city : String) : List TemperatureRecord :=
  match fetch_city_temperature city now (env city) with
  | .ok (some r) => acc ++ [r]
  | .ok none => acc
  | .error _ => acc

/-- `scrape_weather_data` (lines 27–48): loop over `self.cities`, mutate
`self.temperature_data`, and return it.  `env` gives each city's HTTP
outcome for this run; `now` the fetch timestamp. -/
def scrape_weather_data (s : ScraperState) (env : String → Response)
    (now : String) : ScraperState × List TemperatureRecord :=
  let d := cities.foldl (scrapeStep env now) s.temperature_data
  (⟨d⟩, d)

/-- The record a given city contributes to the run: `some r` exactly when
`_fetch_city_temperature` returns a record (neither `None` nor an
exception). -/
def successRecord (env : String → Response) (now : String)
    (city : String) : Option TemperatureRecord :=
  match fetch_city_temperature city now (env city) with
  | .ok (some r) => some r
  | _ => none

/-- The value a method hands back to Python callers: `None`, a string
(a file path), or the sorted DataFrame (kept as its row records). -/
inductive PyValue where
  | none
  | str (s : String)
  | frame (rows : List TemperatureRecord)
deriving Repr, DecidableEq

/-- `True` exactly on string-valued results. -/
def PyValue.isStr : PyValue → Bool
  | .str _ => true
  | _ => false

/-- Ordering used by `df.sort_values('Max Temp (°C)', ascending=False)`
(line 95) and `df.nlargest(5, 'Max Temp (°C)')` (line 142). -/
def maxTempDesc (a b : TemperatureRecord) : Prop := b.maxTempC ≤ a.maxTempC

/-- Ordering used by `df.nsmallest(5, 'Min Temp (°C)')` (line 148). -/
def minTempAsc (a b : TemperatureRecord) : Prop := a.minTempC ≤ b.minTempC

instance : DecidableRel maxTempDesc := fun a b =>
  inferInstanceAs (Decidable (b.maxTempC ≤ a.maxTempC))

instance : DecidableRel minTempAsc := fun a b =>
  inferInstanceAs (Decidable (a.minTempC ≤ b.minTempC))

instance : IsTotal TemperatureRecord maxTempDesc := ⟨fun a b => le_total b.maxTempC a.maxTempC⟩

instance : IsTrans TemperatureRecord maxTempDesc :=
  ⟨fun _ _ _ h₁ h₂ => le_trans h₂ h₁⟩

instance : IsTotal TemperatureRecord minTempAsc := ⟨fun a b => le_total a.minTempC b.minTempC⟩

instance : IsTrans TemperatureRecord minTempAsc :=
  ⟨fun _ _ _ h₁ h₂ => le_trans h₁ h₂⟩

/-- The records in descending `Max Temp (°C)` order (line 95 / line 142). -/
def sortByMaxTempDesc (l : List TemperatureRecord) : List TemperatureRecord :=
  l.insertionSort maxTempDesc

/-- The records in ascending `Min Temp (°C)` order (line 148). -/
def sortByMinTempAsc (l : List TemperatureRecord) : List TemperatureRecord :=
  l.insertionSort minTempAsc

/-- The CSV header `df.to_csv` writes: the DataFrame's columns, which are the
record dict's keys in insertion order (lines 69–77, 92, 100). -/
def csvHeader : List String :=
  ["City", "Min Temp (°C)", "Max Temp (°C)", "Current Condition",
   "Humidity (%)", "Wind Speed (km/h)", "Fetched At"]

/-- One CSV data row: the record's cells in column order, numbers rendered
as text. -/
def recordToRow (r : TemperatureRecord) : List String :=
  [r.city, toString r.minTempC, toString r.maxTempC, r.condition,
   toString r.humidityPercent, toString r.windSpeedKmh, r.fetchedAt]

/-- `output/temperature_data_<timestamp>.csv` (line 98). -/
def csvPath (timestamp : String) : String :=
  "output/temperature_data_" ++ timestamp ++ ".csv"

/-- `output/temperature_data_<timestamp>.json` (line 112). -/
def jsonPath (timestamp : String) : String :=
  "output/temperature_data_" ++ timestamp ++ ".json"

/-- What an export call leaves behind: the file it wrote (path and rows),
if any, and the Python return value. -/
structure CsvEffect where
  file : Option (String × List (List String))
  ret : PyValue
deriving Repr, DecidableEq

/-- `save_to_csv` (lines 86–103).  On empty data it prints and returns `None`
writing nothing (88–90); otherwise it builds a DataFrame (92), sorts it by
max temperature descending (95), writes header plus one row per record to the
timestamped file (97–100), and returns the sorted DataFrame `df` (103).  The
method never reassigns `self.temperature_data`, so the state is returned
unchanged. -/
def save_to_csv (s : ScraperState) (timestamp : String) :
    ScraperState × CsvEffect :=
  if s.temperature_data.isEmpty then
    (s, { file := Option.none, ret := .none })
  else
    let df := sortByMaxTempDesc s.temperature_data
    (s, { file := some (csvPath timestamp, csvHeader :: df.map recordToRow),
          ret := .frame df })

/-- `json.dump`'s image of one record (lines 69–77 dict, serialized at
line 115): an object with the record's field names as keys, in dict
insertion order. -/
def recordToJson (r : TemperatureRecord) : Json :=
  .obj [("City", .str r.city),
        ("Min Temp (°C)", .num r.minTempC),
        ("Max Temp (°C)", .num r.maxTempC),
        ("Current Condition", .str r.condition),
        ("Humidity (%)", .num r.humidityPercent),
        ("Wind Speed (km/h)", .num r.windSpeedKmh),
        ("Fetched At", .str r.fetchedAt)]

/-- What `save_to_json` leaves behind: the document written, if any, and the
Python return value. -/
structure JsonEffect where
  file : Option (String × Json)
  ret : PyValue

/-- `save_to_json` (lines 105–118).  On empty data it prints and returns
`None` writing nothing (107–109); otherwise it dumps `self.temperature_data`
— in its current (unsorted) order — to the timestamped file (114–115) and
returns the file path (118).  The state is returned unchanged. -/
def save_to_json (s : ScraperState) (timestamp : String) :
    ScraperState × JsonEffect :=
  if s.temperature_data.isEmpty then
    (s, { file := Option.none, ret := .none })
  else
    (s, { file := some (jsonPath timestamp,
                        .arr (s.temperature_data.map recordToJson)),
          ret := .str (jsonPath timestamp) })

/-- The keys of a JSON object, in order. -/
def jsonObjKeys : Json → List String
  | .obj fields => fields.map Prod.fst
  | _ => []

/-- Re-parse one object of the exported JSON document back into a record, by
field-name lookup (as `json.load` + dictionary access would). -/
def jsonToRecord : Json → Option TemperatureRecord
  | .obj fields => do
    let city ← match fields.lookup "City" with
      | some (.str s) => some s | _ => Option.none
    let minT ← match fields.lookup "Min Temp (°C)" with
      | some (.num n) => some n | _ => Option.none
    let maxT ← match fields.lookup "Max Temp (°C)" with
      | some (.num n) => some n | _ => Option.none
    let cond ← match fields.lookup "Current Condition" with
      | some (.str s) => some s | _ => Option.none
    let hum ← match fields.lookup "Humidity (%)" with
      | some (.num n) => some n | _ => Option.none
    let wind ← match fields.lookup "Wind Speed (km/h)" with
      | some (.num n) => some n | _ => Option.none
    let fat ← match fields.lookup "Fetched At" with
      | some (.str s) => some s | _ => Option.none
    pure ⟨city, minT, maxT, cond, hum, wind, fat⟩
  | _ => Option.none

/-- Re-parse a list of JSON objects element by element, failing if any
element fails. -/
def jsonToRecordList : List Json → Option (List TemperatureRecord)
  | [] => some []
  | j :: js => do
    let r ← jsonToRecord j
    let rs ← jsonToRecordList js
    pure (r :: rs)

/-- Re-parse the whole exported document (a JSON array of objects). -/
def jsonToRecords : Json → Option (List TemperatureRecord)
  | .arr elems => jsonToRecordList elems
  | _ => Option.none

/-- Lower-case hex digit, for `\u00XX` escapes. -/
def hexDigit (n : Nat) : Char :=
  if n < 10 then Char.ofNat (48 + n) else Char.ofNat (87 + n)

/-- How `json.dump(..., ensure_ascii=False)` (line 115) renders one character
inside a string literal: `"` and `\` get a backslash, the common control
characters get two-character escapes, other control characters get `\u00XX`,
and every other character — all non-ASCII included — is written literally. -/
def escapeChar (c : Char) : List Char :=
  if c = '"' then ['\\', '"']
  else if c = '\\' then ['\\', '\\']
  else if c = '\n' then ['\\', 'n']
  else if c = '\r' then ['\\', 'r']
  else if c = '\t' then ['\\', 't']
  else if c.toNat < 32 then
    ['\\', 'u', '0', '0', hexDigit (c.toNat / 16), hexDigit (c.toNat % 16)]
  else [c]

/-- The body of a JSON string literal as `json.dump(..., ensure_ascii=False)`
writes it. -/
def escapeJsonString (s : String) : String :=
  String.mk (s.data.flatMap escapeChar)

/-- `df['Max Temp (°C)'].idxmax()` + `df.loc[..., 'City']` (line 136): the
first record attaining the maximal max temperature.  `pandas.idxmax` returns
the first occurrence of the maximum. -/
def hottestCity : List TemperatureRecord → Option TemperatureRecord
  | [] => Option.none
  | x :: xs =>
    some (xs.foldl (fun best y => if best.maxTempC < y.maxTempC then y else best) x)

/-- `df['Min Temp (°C)'].idxmin()` + `df.loc[..., 'City']` (line 137): the
first record attaining the minimal min temperature. -/
def coldestCity : List TemperatureRecord → Option TemperatureRecord
  | [] => Option.none
  | x :: xs =>
    some (xs.foldl (fun best y => if y.minTempC < best.minTempC then y else best) x)

/-- `df.nlargest(5, 'Max Temp (°C)')` (line 142): the first five rows in
descending max-temperature order; `keep='first'` resolves ties towards
earlier rows, so this is a stable descending sort truncated to five. -/
def top5Hottest (l : List TemperatureRecord) : List TemperatureRecord :=
  (sortByMaxTempDesc l).take 5

/-- `df.nsmallest(5, 'Min Temp (°C)')` (line 148): the first five rows in
ascending min-temperature order, ties towards earlier rows. -/
def top5Coldest (l : List TemperatureRecord) : List TemperatureRecord :=
  (sortByMinTempAsc l).take 5

/-- A wttr.in-shaped response carrying the given field strings, used to
exercise the fetch path on concrete inputs. -/
def goodResponse (minT maxT cond hum wind : String) : Response :=
  .json (.obj
    [("current_condition", .arr
       [.obj [("weatherDesc", .arr [.obj [("value", .str cond)]]),
              ("humidity", .str hum),
              ("windspeedKmph", .str wind)]]),
     ("weather", .arr
       [.obj [("mintempC", .str minT), ("maxtempC", .str maxT)]])])

/-- A response whose `current_condition` array is present but empty; the
`weather` section is complete. -/
def emptyCCResponse : Response :=
  .json (.obj
    [("current_condition", .arr []),
     ("weather", .arr
       [.obj [("mintempC", .str "26"), ("maxtempC", .str "34")]])])

/-- A complete `current_condition` element (for responses missing other
parts). -/
def sampleCCElem : Json :=
  .obj [("weatherDesc", .arr [.obj [("value", .str "Sunny")]]),
        ("humidity", .str "60"),
        ("windspeedKmph", .str "12")]

/-- Concrete records used to instantiate the theorems. -/
def sampleRec : TemperatureRecord :=
  ⟨"Mumbai", 26, 34, "Sunny", 60, 12, "2025-01-01 12:00:00"⟩

def sampleRec2 : TemperatureRecord :=
  ⟨"Shimla", 8, 18, "Clear", 40, 5, "2025-01-01 12:00:00"⟩

/-- An environment for a first run: only New Delhi's fetch succeeds. -/
def envRun1 : String → Response := fun c =>
  if c = "New Delhi" then goodResponse "26" "34" "Sunny" "60" "12" else .netError

/-- The record `envRun1` yields for New Delhi at timestamp `"t1"`. -/
def recRun1 : TemperatureRecord := ⟨"New Delhi", 26, 34, "Sunny", 60, 12, "t1"⟩

/-- An environment for a second run: only Kolkata's fetch succeeds. -/
def envRun2 : String → Response := fun c =>
  if c = "Kolkata" then goodResponse "20" "31" "Haze" "70" "8" else .netError

/-- The record `envRun2` yields for Kolkata at timestamp `"t2"`. -/
def recRun2 : TemperatureRecord := ⟨"Kolkata", 20, 31, "Haze", 70, 8, "t2"⟩

/-- An environment where New Delhi's response has a non-numeric minimum
temperature — `float("NA")` raises `ValueError` — while Kolkata succeeds and
every other city has a network failure. -/
def envValueError : String → Response := fun c =>
  if c = "New Delhi" then goodResponse "NA" "34" "Sunny" "60" "12"
  else if c = "Kolkata" then goodResponse "20" "31" "Haze" "70" "8"
  else .netError

/-- Specification of line 136: the hottest record is maximal in max
temperature and is the first such record in iteration order. -/
def hottestSpec (data : List TemperatureRecord) : Prop :=
  ∃ l₁ l₂ m, hottestCity data = some m ∧ data = l₁ ++ m :: l₂ ∧
    (∀ r ∈ data, r.maxTempC ≤ m.maxTempC) ∧
    (∀ r ∈ l₁, r.maxTempC < m.maxTempC)

/-- Specification of line 137: the coldest record is minimal in min
temperature and is the first such record in iteration order. -/
def coldestSpec (data : List TemperatureRecord) : Prop :=
  ∃ l₁ l₂ m, coldestCity data = some m ∧ data = l₁ ++ m :: l₂ ∧
    (∀ r ∈ data, m.minTempC ≤ r.minTempC) ∧
    (∀ r ∈ l₁, m.minTempC < r.minTempC)

/-- Specification of line 142: the top-5 hottest list has `min 5 M` entries,
is sorted descending by max temperature, consists of records at least as hot
as everything left out, and keeps tied records in their original relative
order (its restriction to any one temperature value is an initial run of the
data's restriction to that value). -/
def top5HotSpec (data : List TemperatureRecord) : Prop :=
  (top5Hottest data).length = min 5 data.length ∧
  (top5Hottest data).Sorted (fun a b => b.maxTempC ≤ a.maxTempC) ∧
  (∃ rest, (top5Hottest data ++ rest).Perm data ∧
    ∀ r ∈ top5Hottest data, ∀ u ∈ rest, u.maxTempC ≤ r.maxTempC) ∧
  (∀ k : Int, (top5Hottest data).filter (fun r => r.maxTempC == k)
      <+: data.filter (fun r => r.maxTempC == k))

/-- Specification of line 148: the top-5 coldest list, ascending by min
temperature, with the same length, selection, and tie-order guarantees. -/
def top5ColdSpec (data : List TemperatureRecord) : Prop :=
  (top5Coldest data).length = min 5 data.length ∧
  (top5Coldest data).Sorted (fun a b => a.minTempC ≤ b.minTempC) ∧
  (∃ rest, (top5Coldest data ++ rest).Perm data ∧
    ∀ r ∈ top5Coldest data, ∀ u ∈ rest, r.minTempC ≤ u.minTempC) ∧
  (∀ k : Int, (top5Coldest data).filter (fun r => r.minTempC == k)
      <+: data.filter (fun r => r.minTempC == k))

/-! ### General lemmas about the embedded operations -/

theorem exceptBindOk {ε α β : Type} (a : α) (f : α → Except ε β) :
    (Except.ok a >>= f : Except ε β) = f a := rfl

theorem exceptBindError {ε α β : Type} (e : ε) (f : α → Except ε β) :
    (Except.error e >>= f : Except ε β) = .error e := rfl

/-- One loop iteration appends exactly the city's successful record, if
any. -/
theorem scrapeStep_eq (env : String → Response) (now : String)
    (acc : List TemperatureRecord) (city : String) :
    scrapeStep env now acc city = acc ++ (successRecord env now city).toList := by
  unfold scrapeStep successRecord
  cases h : fetch_city_temperature city now (env city) with
  | ok o => cases o <;> simp
  | error e => simp

/-- The scrape loop appends, in city-list order, exactly the records of the
cities whose fetch succeeded. -/
theorem foldl_scrapeStep (env : String → Response) (now : String) :
    ∀ (cs : List String) (init : List TemperatureRecord),
      cs.foldl (scrapeStep env now) init
        = init ++ cs.filterMap (successRecord env now)
  | [], init => by simp
  | c :: cs, init => by
    rw [List.foldl_cons, scrapeStep_eq,
      foldl_scrapeStep env now cs (init ++ (successRecord env now c).toList),
      List.filterMap_cons]
    cases h : successRecord env now c <;> simp

/-- Inserting an element satisfying `p` into a list, when every element not
related to it fails `p`, prepends it to the `p`-filtered list. -/
theorem filterOrderedInsertPos {α : Type} (rel : α → α → Prop) [DecidableRel rel]
    (p : α → Bool) (a : α) (hpa : p a = true)
    (hskip : ∀ b, ¬ rel a b → p b = false) :
    ∀ l : List α, (l.orderedInsert rel a).filter p = a :: l.filter p := by
  intro l
  induction l with
  | nil => simp [List.orderedInsert, hpa]
  | cons b l ih =>
    by_cases hab : rel a b
    · simp [List.orderedInsert, hab, List.filter_cons, hpa]
    · have hpb := hskip b hab
      simp [List.orderedInsert, hab, List.filter_cons, hpb, ih]

/-- Inserting an element failing `p` leaves the `p`-filtered list
unchanged. -/
theorem filterOrderedInsertNeg {α : Type} (rel : α → α → Prop) [DecidableRel rel]
    (p : α → Bool) (a : α) (hpa : p a = false) :
    ∀ l : List α, (l.orderedInsert rel a).filter p = l.filter p := by
  intro l
  induction l with
  | nil => simp [List.orderedInsert, hpa]
  | cons b l ih =>
    by_cases hab : rel a b
    · simp [List.orderedInsert, hab, List.filter_cons, hpa]
    · simp [List.orderedInsert, hab, List.filter_cons, ih]

/-- Stability of the sort, phrased through filters: when any two elements
satisfying `p` are related, sorting does not disturb the `p`-filtered
subsequence. -/
theorem filterInsertionSort {α : Type} (rel : α → α → Prop) [DecidableRel rel]
    (p : α → Bool) (hsel : ∀ a b, p a = true → p b = true → rel a b) :
    ∀ l : List α, (l.insertionSort rel).filter p = l.filter p := by
  intro l
  induction l with
  | nil => rfl
  | cons a l ih =>
    simp only [List.insertionSort]
    cases hpa : p a with
    | true =>
      have hskip : ∀ b, ¬ rel a b → p b = false := by
        intro b hb
        cases hpb : p b with
        | false => rfl
        | true => exact absurd (hsel a b hpa hpb) hb
      rw [filterOrderedInsertPos rel p a hpa hskip, ih, List.filter_cons, hpa]
      simp
    | false =>
      rw [filterOrderedInsertNeg rel p a hpa, ih, List.filter_cons, hpa]
      simp

/-- Filtering preserves list prefixes. -/
theorem filterIsPrefix {α : Type} (p : α → Bool) {l₁ l₂ : List α}
    (h : l₁ <+: l₂) : l₁.filter p <+: l₂.filter p := by
  obtain ⟨t, rfl⟩ := h
  exact ⟨t.filter p, (List.filter_append l₁ t).symm⟩

/-- The running "best" of the first-occurrence argmax fold: the result is an
element of the list, every element's key is bounded by its key, and every
element strictly before it has a strictly smaller key. -/
theorem foldlArgmaxSpec {α : Type} (g : α → Int) :
    ∀ (xs : List α) (x : α),
      ∃ l₁ l₂ m,
        xs.foldl (fun best y => if g best < g y then y else best) x = m ∧
        x :: xs = l₁ ++ m :: l₂ ∧
        (∀ r ∈ x :: xs, g r ≤ g m) ∧
        (∀ r ∈ l₁, g r < g m)
  | [], x => ⟨[], [], x, rfl, rfl, by simp, by simp⟩
  | y :: ys, x => by
    rw [List.foldl_cons]
    by_cases h : g x < g y
    · obtain ⟨l₁, l₂, m, hfold, hdecomp, hbound, hstrict⟩ := foldlArgmaxSpec g ys y
      refine ⟨x :: l₁, l₂, m, ?_, ?_, ?_, ?_⟩
      · rw [if_pos h]; exact hfold
      · rw [List.cons_append, ← hdecomp]
      · intro r hr
        rcases List.mem_cons.mp hr with rfl | hr
        · have hy : g y ≤ g m := hbound y (List.mem_cons_self _ _)
          omega
        · exact hbound r hr
      · intro r hr
        rcases List.mem_cons.mp hr with rfl | hr
        · have hy : g y ≤ g m := hbound y (List.mem_cons_self _ _)
          omega
        · exact hstrict r hr
    · obtain ⟨l₁, l₂, m, hfold, hdecomp, hbound, hstrict⟩ := foldlArgmaxSpec g ys x
      rw [if_neg h]
      rcases l₁ with _ | ⟨a, l₁⟩
      · obtain ⟨rfl, rfl⟩ : x = m ∧ ys = l₂ := by
          simpa using hdecomp
        refine ⟨[], y :: ys, x, hfold, by simp, ?_, by simp⟩
        intro r hr
        rcases List.mem_cons.mp hr with rfl | hr
        · exact le_refl _
        rcases List.mem_cons.mp hr with rfl | hr
        · omega
        · exact hbound r (List.mem_cons_of_mem x hr)
      · rw [List.cons_append] at hdecomp
        obtain ⟨hxa, hys⟩ := List.cons_eq_cons.mp hdecomp
        rw [← hxa] at hstrict
        have hxm : g x < g m := hstrict x (List.mem_cons_self x l₁)
        have hyx : g y ≤ g x := le_of_not_lt h
        refine ⟨x :: y :: l₁, l₂, m, hfold, ?_, ?_, ?_⟩
        · rw [hys]; simp
        · intro r hr
          rcases List.mem_cons.mp hr with rfl | hr
          · exact le_of_lt hxm
          rcases List.mem_cons.mp hr with rfl | hr
          · omega
          · exact hbound r (List.mem_cons_of_mem x hr)
        · intro r hr
          rcases List.mem_cons.mp hr with rfl | hr
          · exact hxm
          rcases List.mem_cons.mp hr with rfl | hr
          · omega
          · exact hstrict r (List.mem_cons_of_mem x hr)

/-- `hottestCity` picks a maximal record, the first such in iteration
order. -/
theorem hottestCitySpec (data : List TemperatureRecord) (h : data ≠ []) :
    ∃ l₁ l₂ m, hottestCity data = some m ∧ data = l₁ ++ m :: l₂ ∧
      (∀ r ∈ data, r.maxTempC ≤ m.maxTempC) ∧
      (∀ r ∈ l₁, r.maxTempC < m.maxTempC) := by
  obtain ⟨x, xs, rfl⟩ := List.exists_cons_of_ne_nil h
  obtain ⟨l₁, l₂, m, hfold, hdec, hb, hs⟩ :=
    foldlArgmaxSpec (fun r => r.maxTempC) xs x
  exact ⟨l₁, l₂, m, congrArg some hfold, hdec, hb, hs⟩

/-- `coldestCity` picks a minimal record, the first such in iteration
order. -/
theorem coldestCitySpec (data : List TemperatureRecord) (h : data ≠ []) :
    ∃ l₁ l₂ m, coldestCity data = some m ∧ data = l₁ ++ m :: l₂ ∧
      (∀ r ∈ data, m.minTempC ≤ r.minTempC) ∧
      (∀ r ∈ l₁, m.minTempC < r.minTempC) := by
  obtain ⟨x, xs, rfl⟩ := List.exists_cons_of_ne_nil h
  obtain ⟨l₁, l₂, m, hfold, hdec, hb, hs⟩ :=
    foldlArgmaxSpec (fun r => -r.minTempC) xs x
  have hstep :
      (fun (best y : TemperatureRecord) =>
        if (fun r : TemperatureRecord => -r.minTempC) best
            < (fun r : TemperatureRecord => -r.minTempC) y then y else best)
      = fun best y => if y.minTempC < best.minTempC then y else best := by
    funext best y
    refine if_congr ?_ rfl rfl
    show -best.minTempC < -y.minTempC ↔ y.minTempC < best.minTempC
    omega
  rw [hstep] at hfold
  refine ⟨l₁, l₂, m, congrArg some hfold, hdec, ?_, ?_⟩
  · intro r hr
    have h1 : -r.minTempC ≤ -m.minTempC := hb r hr
    omega
  · intro r hr
    have h1 : -r.minTempC < -m.minTempC := hs r hr
    omega

/-- Re-parsing the JSON image of one record recovers the record. -/
theorem jsonToRecordRoundTrip (r : TemperatureRecord) :
    jsonToRecord (recordToJson r) = some r := rfl

/-- Re-parsing the JSON image of a record list recovers the list,
order included. -/
theorem jsonToRecordsRoundTrip (l : List TemperatureRecord) :
    jsonToRecords (.arr (l.map recordToJson)) = some l := by
  show jsonToRecordList (l.map recordToJson) = some l
  induction l with
  | nil => rfl
  | cons r l ih => simp [jsonToRecordList, jsonToRecordRoundTrip, ih]

/-- Characters other than `"`, `\` and control characters — all non-ASCII
characters among them — are written literally by the encoder. -/
theorem escapeCharEqSelf (c : Char) (h32 : 32 ≤ c.toNat)
    (hq : c ≠ '"') (hb : c ≠ '\\') : escapeChar c = [c] := by
  have hn : c ≠ '\n' := fun hc => absurd h32 (by rw [hc]; decide)
  have hr : c ≠ '\r' := fun hc => absurd h32 (by rw [hc]; decide)
  have ht : c ≠ '\t' := fun hc => absurd h32 (by rw [hc]; decide)
  simp [escapeChar, hq, hb, hn, hr, ht, show ¬ c.toNat < 32 by omega]

/-- A truncated sorted copy: length, sortedness, and a permutation
decomposition in which everything left out is bounded by everything kept. -/
theorem takeSortSpec {α : Type} (rel : α → α → Prop) [DecidableRel rel]
    [IsTotal α rel] [IsTrans α rel] (n : Nat) (data : List α) :
    ((data.insertionSort rel).take n).length = min n data.length ∧
    ((data.insertionSort rel).take n).Sorted rel ∧
    ∃ rest, ((data.insertionSort rel).take n ++ rest).Perm data ∧
      ∀ r ∈ (data.insertionSort rel).take n, ∀ u ∈ rest, rel r u := by
  have hperm := List.perm_insertionSort rel data
  have hsorted := List.sorted_insertionSort rel data
  refine ⟨?_, ?_, (data.insertionSort rel).drop n, ?_, ?_⟩
  · rw [List.length_take, hperm.length_eq]
  · exact hsorted.sublist (List.take_sublist n _)
  · rw [List.take_append_drop]
    exact hperm
  · intro r hr u hu
    have hp : ((data.insertionSort rel).take n ++ (data.insertionSort rel).drop n).Pairwise rel := by
      rw [List.take_append_drop]
      exact hsorted
    exact (List.pairwise_append.mp hp).2.2 r hr u hu

/-- Truncating a stable sort keeps tied elements as an initial run of their
original subsequence. -/
theorem takeSortStability {α : Type} (rel : α → α → Prop) [DecidableRel rel]
    (p : α → Bool) (hsel : ∀ a b, p a = true → p b = true → rel a b)
    (n : Nat) (data : List α) :
    ((data.insertionSort rel).take n).filter p <+: data.filter p := by
  have htake := List.take_prefix n (data.insertionSort rel)
  have h1 := filterIsPrefix p htake
  rw [filterInsertionSort rel p hsel data] at h1
  exact h1

/-- `filterMap` yields one output element per input on which the function
succeeds. -/
theorem lengthFilterMap {α β : Type} (f : α → Option β) :
    ∀ l : List α,
      (l.filterMap f).length = (l.filter (fun a => (f a).isSome)).length
  | [] => rfl
  | a :: l => by
    rw [List.filterMap_cons, List.filter_cons]
    cases h : f a <;> simp [h, lengthFilterMap f l]

/-! ### Claims -/

/-- C1, as stated, is false of the code: `scrape_weather_data` returns the
instance field `temperature_data`, which is never cleared, so a second run on
the same scraper returns the earlier run's records as well.  Here the second
run has exactly one successful fetch (Kolkata) yet its returned ResultSet has
two records — the first run's New Delhi record followed by Kolkata's. -/
theorem C1_counterexample :
    (cities.filter (fun c => (successRecord envRun2 "t2" c).isSome)).length = 1 ∧
    (scrape_weather_data (scrape_weather_data ⟨[]⟩ envRun1 "t1").1 envRun2 "t2").2
      = [recRun1, recRun2] := by
  exact ⟨by decide, by decide⟩

/-- C1 amended: a run started on a scraper with an empty accumulated
collection (a freshly constructed scraper, as in `main`) returns exactly the
successful cities' records, in city-list order — so K records when K fetches
succeed, and the empty list when none do.  (A run on a reused scraper
additionally returns the previously accumulated records first.) -/
theorem C1_amended (env : String → Response) (now : String) :
    (scrape_weather_data ⟨[]⟩ env now).2
        = cities.filterMap (successRecord env now) ∧
    (scrape_weather_data ⟨[]⟩ env now).2.length
        = (cities.filter (fun c => (successRecord env now c).isSome)).length ∧
    ((∀ c ∈ cities, successRecord env now c = Option.none) →
      (scrape_weather_data ⟨[]⟩ env now).2 = []) := by
  have base : (scrape_weather_data ⟨[]⟩ env now).2
      = cities.filterMap (successRecord env now) := by
    show cities.foldl (scrapeStep env now) [] = _
    simpa using foldl_scrapeStep env now cities []
  refine ⟨base, ?_, ?_⟩
  · rw [base, lengthFilterMap]
  · intro hz
    rw [base]
    exact List.filterMap_eq_nil_iff.mpr hz

/-- Closed instance of the amended C1: with every fetch failing at the
network layer, a fresh run returns the empty ResultSet, not an error. -/
theorem C1_witness :
    (scrape_weather_data ⟨[]⟩ (fun _ => Response.netError) "t").2
        = cities.filterMap (successRecord (fun _ => Response.netError) "t") ∧
    (scrape_weather_data ⟨[]⟩ (fun _ => Response.netError) "t").2 = [] :=
  ⟨(C1_amended (fun _ => Response.netError) "t").1,
   (C1_amended (fun _ => Response.netError) "t").2.2 (fun _ _ => rfl)⟩

/-- C10: when some city's fetch raises an arbitrary exception — `ValueError`
from a non-numeric numeric field, `IndexError` from an empty array, or any
other — the loop's `except Exception` catches it: that city contributes no
record, and the run still completes, returning the accumulated list of every
successful city's record in order. -/
theorem C10_per_city_catch (s : ScraperState) (env : String → Response)
    (now : String) (c : String) (_hc : c ∈ cities) (e : PyExc)
    (he : fetch_city_temperature c now (env c) = .error e) :
    successRecord env now c = Option.none ∧
    (scrape_weather_data s env now).2
      = s.temperature_data ++ cities.filterMap (successRecord env now) := by
  constructor
  · unfold successRecord
    rw [he]
  · show cities.foldl (scrapeStep env now) s.temperature_data = _
    exact foldl_scrapeStep env now cities s.temperature_data

/-- Closed instance of C10: New Delhi's response carries a non-numeric
minimum temperature, so its fetch raises `ValueError`; the run nevertheless
proceeds through the remaining cities and returns Kolkata's record. -/
theorem C10_witness :
    fetch_city_temperature "New Delhi" "t" (envValueError "New Delhi")
        = .error .valueError ∧
    successRecord envValueError "t" "New Delhi" = Option.none ∧
    (scrape_weather_data ⟨[]⟩ envValueError "t").2
        = [⟨"Kolkata", 20, 31, "Haze", 70, 8, "t"⟩] := by
  have h := C10_per_city_catch ⟨[]⟩ envValueError "t" "New Delhi"
    (by decide) .valueError (by decide)
  refine ⟨by decide, h.1, ?_⟩
  rw [h.2]
  decide

/-- C2, as stated, is false of the code: an empty `current_condition` array
is a malformed response, yet `data['current_condition'][0]` raises
`IndexError`, which is caught by neither except clause of
`_fetch_city_temperature` — the exception escapes the call instead of
yielding the parse-failure `None`. -/
theorem C2_counterexample :
    fetch_city_temperature "Mumbai" "2025-01-01 12:00:00" emptyCCResponse
      = .error .indexError := by
  decide

/-- C2 amended: malformed responses whose failure surfaces as `KeyError` or
`json.JSONDecodeError` — a non-JSON body, a missing `current_condition` key,
a missing `weather` key — make `_fetch_city_temperature` return `None`
without raising; but an expected array being empty raises `IndexError` out
of the call (left to the caller's blanket handler). -/
theorem C2_amended (city now : String) :
    fetch_city_temperature city now .notJson = .ok Option.none ∧
    (∀ fields : List (String × Json),
      fields.lookup "current_condition" = Option.none →
      fetch_city_temperature city now (.json (.obj fields)) = .ok Option.none) ∧
    (∀ (fields : List (String × Json)) (cc : Json) (rest : List Json),
      fields.lookup "current_condition" = some (.arr (cc :: rest)) →
      fields.lookup "weather" = Option.none →
      fetch_city_temperature city now (.json (.obj fields)) = .ok Option.none) ∧
    (∀ fields : List (String × Json),
      fields.lookup "current_condition" = some (.arr []) →
      fetch_city_temperature city now (.json (.obj fields)) = .error .indexError) := by
  refine ⟨rfl, ?_, ?_, ?_⟩
  · intro fields h
    have hbody : fetchBody city now (.json (.obj fields)) = .error .keyError := by
      simp [fetchBody, responseJson, getKey, h, exceptBindOk, exceptBindError]
    simp [fetch_city_temperature, hbody]
  · intro fields cc rest h1 h2
    have hbody : fetchBody city now (.json (.obj fields)) = .error .keyError := by
      simp [fetchBody, responseJson, getKey, getIdx, h1, h2, exceptBindOk, exceptBindError]
    simp [fetch_city_temperature, hbody]
  · intro fields h
    have hbody : fetchBody city now (.json (.obj fields)) = .error .indexError := by
      simp [fetchBody, responseJson, getKey, getIdx, h, exceptBindOk, exceptBindError]
    simp [fetch_city_temperature, hbody]

/-- Closed instances of the amended C2, one per malformed-response class. -/
theorem C2_witness :
    fetch_city_temperature "Mumbai" "t" .notJson = .ok Option.none ∧
    fetch_city_temperature "Mumbai" "t" (.json (.obj [])) = .ok Option.none ∧
    fetch_city_temperature "Mumbai" "t"
        (.json (.obj [("current_condition", .arr [sampleCCElem])]))
      = .ok Option.none ∧
    fetch_city_temperature "Mumbai" "t"
        (.json (.obj [("current_condition", .arr [])]))
      = .error .indexError :=
  ⟨(C2_amended "Mumbai" "t").1,
   (C2_amended "Mumbai" "t").2.1 [] rfl,
   (C2_amended "Mumbai" "t").2.2.1 [("current_condition", .arr [sampleCCElem])]
     sampleCCElem [] rfl rfl,
   (C2_amended "Mumbai" "t").2.2.2 [("current_condition", .arr [])] rfl⟩

/-- C3: on an empty collection both export methods report "No data to
save.", return `None`, and write no file. -/
theorem C3_empty_export (t : String) :
    (save_to_csv ⟨[]⟩ t).2.file = Option.none ∧
    (save_to_csv ⟨[]⟩ t).2.ret = .none ∧
    (save_to_json ⟨[]⟩ t).2.file = Option.none ∧
    (save_to_json ⟨[]⟩ t).2.ret = .none :=
  ⟨rfl, rfl, rfl, rfl⟩

/-- Closed instance of C3 at a concrete timestamp. -/
theorem C3_witness :
    (save_to_csv ⟨[]⟩ "ts").2.file = Option.none ∧
    (save_to_csv ⟨[]⟩ "ts").2.ret = .none ∧
    (save_to_json ⟨[]⟩ "ts").2.file = Option.none ∧
    (save_to_json ⟨[]⟩ "ts").2.ret = .none :=
  C3_empty_export "ts"

/-- C4: on non-empty data the CSV file holds the exact seven-column header
followed by one row per record, the rows being the records sorted by
`Max Temp (°C)` descending. -/
theorem C4_csv_file (s : ScraperState) (t : String)
    (h : s.temperature_data ≠ []) :
    ∃ df : List TemperatureRecord, (save_to_csv s t).2.file
        = some (csvPath t,
            ["City", "Min Temp (°C)", "Max Temp (°C)", "Current Condition",
             "Humidity (%)", "Wind Speed (km/h)", "Fetched At"]
              :: df.map recordToRow) ∧
      df.length = s.temperature_data.length ∧
      df.Perm s.temperature_data ∧
      df.Sorted (fun a b => b.maxTempC ≤ a.maxTempC) := by
  have hne : s.temperature_data.isEmpty = false := by
    cases hd : s.temperature_data with
    | nil => exact absurd hd h
    | cons a l => rfl
  refine ⟨sortByMaxTempDesc s.temperature_data, ?_, ?_, ?_, ?_⟩
  · simp [save_to_csv, hne, csvHeader]
  · exact (List.perm_insertionSort maxTempDesc s.temperature_data).length_eq
  · exact List.perm_insertionSort maxTempDesc s.temperature_data
  · exact List.sorted_insertionSort maxTempDesc s.temperature_data

/-- Closed instance of C4 on a two-record collection. -/
theorem C4_witness :
    ([sampleRec, sampleRec2] : List TemperatureRecord) ≠ [] ∧
    ∃ df : List TemperatureRecord,
      (save_to_csv ⟨[sampleRec, sampleRec2]⟩ "ts").2.file
        = some (csvPath "ts",
            ["City", "Min Temp (°C)", "Max Temp (°C)", "Current Condition",
             "Humidity (%)", "Wind Speed (km/h)", "Fetched At"]
              :: df.map recordToRow) ∧
      df.length = ([sampleRec, sampleRec2] : List TemperatureRecord).length ∧
      df.Perm [sampleRec, sampleRec2] ∧
      df.Sorted (fun a b => b.maxTempC ≤ a.maxTempC) :=
  ⟨by decide, C4_csv_file ⟨[sampleRec, sampleRec2]⟩ "ts" (by decide)⟩

/-- C5: on non-empty data the JSON export writes the records, in original
order, as an array of objects keyed by the record's own field names;
re-parsing that document recovers the records field for field in order; and
the encoder's `ensure_ascii=False` string rendering leaves every character
other than `"`, `\` and control characters — in particular every non-ASCII
character — literally in place. -/
theorem C5_json_roundtrip (s : ScraperState) (t : String)
    (h : s.temperature_data ≠ []) :
    (save_to_json s t).2.file
        = some (jsonPath t, .arr (s.temperature_data.map recordToJson)) ∧
    jsonToRecords (.arr (s.temperature_data.map recordToJson))
        = some s.temperature_data ∧
    (∀ r : TemperatureRecord, jsonObjKeys (recordToJson r)
        = ["City", "Min Temp (°C)", "Max Temp (°C)", "Current Condition",
           "Humidity (%)", "Wind Speed (km/h)", "Fetched At"]) ∧
    (∀ c : Char, 128 ≤ c.toNat → escapeChar c = [c]) ∧
    (∀ str : String,
      (∀ c ∈ str.data, 32 ≤ c.toNat ∧ c ≠ '"' ∧ c ≠ '\\') →
      escapeJsonString str = str) := by
  have hne : s.temperature_data.isEmpty = false := by
    cases hd : s.temperature_data with
    | nil => exact absurd hd h
    | cons a l => rfl
  refine ⟨by simp [save_to_json, hne],
    jsonToRecordsRoundTrip s.temperature_data, fun r => rfl, ?_, ?_⟩
  · intro c hc
    refine escapeCharEqSelf c (by omega) (fun hq => ?_) (fun hb => ?_)
    · rw [hq] at hc
      exact absurd hc (by decide)
    · rw [hb] at hc
      exact absurd hc (by decide)
  · intro str hstr
    have hlist : ∀ cs : List Char,
        (∀ c ∈ cs, 32 ≤ c.toNat ∧ c ≠ '"' ∧ c ≠ '\\') →
        cs.flatMap escapeChar = cs := by
      intro cs
      induction cs with
      | nil => intro _; rfl
      | cons c cs ih =>
        intro hcs
        obtain ⟨h32, hq, hb⟩ := hcs c (List.mem_cons_self _ _)
        show escapeChar c ++ cs.flatMap escapeChar = c :: cs
        rw [escapeCharEqSelf c h32 hq hb,
          ih (fun d hd => hcs d (List.mem_cons_of_mem _ hd))]
        rfl
    show String.mk (str.data.flatMap escapeChar) = str
    rw [hlist str.data hstr]

/-- Closed instance of C5 on a one-record collection. -/
theorem C5_witness :
    ([sampleRec] : List TemperatureRecord) ≠ [] ∧
    (save_to_json ⟨[sampleRec]⟩ "ts").2.file
        = some (jsonPath "ts", .arr ([sampleRec].map recordToJson)) ∧
    jsonToRecords (.arr ([sampleRec].map recordToJson)) = some [sampleRec] ∧
    escapeJsonString "Münich" = "Münich" :=
  ⟨by decide,
   (C5_json_roundtrip ⟨[sampleRec]⟩ "ts" (by decide)).1,
   (C5_json_roundtrip ⟨[sampleRec]⟩ "ts" (by decide)).2.1,
   (C5_json_roundtrip ⟨[sampleRec]⟩ "ts" (by decide)).2.2.2.2 "Münich" (by decide)⟩

/-- C6: the summary's hottest city is the record with maximal
`Max Temp (°C)` and the coldest the record with minimal `Min Temp (°C)`,
ties going to the first occurrence in iteration order (`pandas.idxmax` /
`idxmin` return the first index attaining the extremum). -/
theorem C6_extremes (data : List TemperatureRecord) (h : data ≠ []) :
    hottestSpec data ∧ coldestSpec data :=
  ⟨hottestCitySpec data h, coldestCitySpec data h⟩

/-- Closed instance of C6 on the two-record scenario of the spec. -/
theorem C6_witness :
    ([sampleRec, sampleRec2] : List TemperatureRecord) ≠ [] ∧
    hottestSpec [sampleRec, sampleRec2] ∧ coldestSpec [sampleRec, sampleRec2] :=
  ⟨by decide, C6_extremes [sampleRec, sampleRec2] (by decide)⟩

/-- C7: the top-5 lists have `min 5 M` entries (no padding, no error below
five records), are sorted descending by max temperature respectively
ascending by min temperature, select the extremal records, and break ties by
original order. -/
theorem C7_top5 (data : List TemperatureRecord) (_h : data ≠ []) :
    top5HotSpec data ∧ top5ColdSpec data := by
  have hselHot : ∀ k : Int, ∀ a b : TemperatureRecord,
      (a.maxTempC == k) = true → (b.maxTempC == k) = true → maxTempDesc a b := by
    intro k a b ha hb
    have ha' : a.maxTempC = k := by simpa using ha
    have hb' : b.maxTempC = k := by simpa using hb
    show b.maxTempC ≤ a.maxTempC
    omega
  have hselCold : ∀ k : Int, ∀ a b : TemperatureRecord,
      (a.minTempC == k) = true → (b.minTempC == k) = true → minTempAsc a b := by
    intro k a b ha hb
    have ha' : a.minTempC = k := by simpa using ha
    have hb' : b.minTempC = k := by simpa using hb
    show a.minTempC ≤ b.minTempC
    omega
  constructor
  · obtain ⟨hlen, hsort, hrest⟩ := takeSortSpec maxTempDesc 5 data
    exact ⟨hlen, hsort, hrest, fun k =>
      takeSortStability maxTempDesc (fun r => r.maxTempC == k) (hselHot k) 5 data⟩
  · obtain ⟨hlen, hsort, hrest⟩ := takeSortSpec minTempAsc 5 data
    exact ⟨hlen, hsort, hrest, fun k =>
      takeSortStability minTempAsc (fun r => r.minTempC == k) (hselCold k) 5 data⟩

/-- Closed instance of C7 on a two-record collection (lists truncate to
length 2). -/
theorem C7_witness :
    ([sampleRec, sampleRec2] : List TemperatureRecord) ≠ [] ∧
    top5HotSpec [sampleRec, sampleRec2] ∧ top5ColdSpec [sampleRec, sampleRec2] :=
  ⟨by decide, C7_top5 [sampleRec, sampleRec2] (by decide)⟩

/-- C8, as stated, is false of the code: on non-empty data `save_to_csv`
returns the sorted DataFrame (line 103), not the path of the CSV file it
wrote; only `save_to_json` returns a file path. -/
theorem C8_counterexample :
    (save_to_csv ⟨[sampleRec]⟩ "20250101_120000").2.ret = .frame [sampleRec] ∧
    ((save_to_csv ⟨[sampleRec]⟩ "20250101_120000").2.ret).isStr = false ∧
    ((save_to_json ⟨[sampleRec]⟩ "20250101_120000").2.ret).isStr = true :=
  ⟨by decide, by decide, by decide⟩

/-- C8 amended: on non-empty data `save_to_json` returns the path of the
JSON file it wrote, while `save_to_csv` writes the CSV file but returns the
sorted DataFrame instead of the file's path. -/
theorem C8_amended (s : ScraperState) (t : String)
    (h : s.temperature_data ≠ []) :
    (save_to_json s t).2.ret = .str (jsonPath t) ∧
    (save_to_json s t).2.file.map Prod.fst = some (jsonPath t) ∧
    (save_to_csv s t).2.ret = .frame (sortByMaxTempDesc s.temperature_data) ∧
    (save_to_csv s t).2.file.map Prod.fst = some (csvPath t) := by
  have hne : s.temperature_data.isEmpty = false := by
    cases hd : s.temperature_data with
    | nil => exact absurd hd h
    | cons a l => rfl
  refine ⟨?_, ?_, ?_, ?_⟩ <;> simp [save_to_json, save_to_csv, hne]

/-- Closed instance of the amended C8 on a one-record collection. -/
theorem C8_witness :
    ([sampleRec] : List TemperatureRecord) ≠ [] ∧
    (save_to_json ⟨[sampleRec]⟩ "ts").2.ret = .str (jsonPath "ts") ∧
    (save_to_json ⟨[sampleRec]⟩ "ts").2.file.map Prod.fst = some (jsonPath "ts") ∧
    (save_to_csv ⟨[sampleRec]⟩ "ts").2.ret = .frame (sortByMaxTempDesc [sampleRec]) ∧
    (save_to_csv ⟨[sampleRec]⟩ "ts").2.file.map Prod.fst = some (csvPath "ts") :=
  ⟨by decide,
   (C8_amended ⟨[sampleRec]⟩ "ts" (by decide)).1,
   (C8_amended ⟨[sampleRec]⟩ "ts" (by decide)).2.1,
   (C8_amended ⟨[sampleRec]⟩ "ts" (by decide)).2.2.1,
   (C8_amended ⟨[sampleRec]⟩ "ts" (by decide)).2.2.2⟩

/-- C9, as stated, is false of the code: `temperature_data` is never
cleared.  After a first run (one success: New Delhi) and a CSV export, the
scraper still holds the record in memory; a subsequent run (one success:
Kolkata) returns a ResultSet that begins with the previous run's record. -/
theorem C9_counterexample :
    (save_to_csv (scrape_weather_data ⟨[]⟩ envRun1 "t1").1 "ts").1.temperature_data
      = [recRun1] ∧
    (scrape_weather_data
        (save_to_csv (scrape_weather_data ⟨[]⟩ envRun1 "t1").1 "ts").1
        envRun2 "t2").2
      = [recRun1, recRun2] :=
  ⟨by decide, by decide⟩

/-- C9 amended: exporting leaves the in-memory collection exactly as it was,
and a subsequent run's returned ResultSet retains every previously
accumulated record (new successes are appended after them). -/
theorem C9_amended (s : ScraperState) (t now : String)
    (env : String → Response) :
    (save_to_csv s t).1 = s ∧ (save_to_json s t).1 = s ∧
    (∀ r ∈ s.temperature_data, r ∈ (scrape_weather_data s env now).2) := by
  refine ⟨?_, ?_, ?_⟩
  · unfold save_to_csv
    split <;> rfl
  · unfold save_to_json
    split <;> rfl
  · intro r hr
    have hbase : (scrape_weather_data s env now).2
        = s.temperature_data ++ cities.filterMap (successRecord env now) :=
      foldl_scrapeStep env now cities s.temperature_data
    rw [hbase]
    exact List.mem_append_left _ hr

/-- Closed instance of the amended C9: the record survives a CSV export and
reappears in the next run's ResultSet. -/
theorem C9_witness :
    (save_to_csv ⟨[sampleRec]⟩ "ts").1 = (⟨[sampleRec]⟩ : ScraperState) ∧
    sampleRec ∈ (scrape_weather_data ⟨[sampleRec]⟩ envRun2 "t2").2 :=
  ⟨(C9_amended ⟨[sampleRec]⟩ "ts" "t2" envRun2).1,
   (C9_amended ⟨[sampleRec]⟩ "ts" "t2" envRun2).2.2 sampleRec (by decide)⟩
